import Mathlib

/-!
Verification development for the cli-mcp-server command gatekeeper.

The Python module src/cli_mcp_server/server.py is shallowly embedded here:
pure fragments become Lean functions, the raised Python exceptions become an
explicit `Except PyExn` result, and the process-spawning library call
`subprocess.run` becomes a parameter `runner : RunCall -> RunOutcome`, so the
executor is a pure function of the request it issues.  Library functions the
source calls (`shlex.split`, `os.path.join`, `os.path.normpath`, `re.match`)
are embedded from their documented POSIX semantics; `os.path.realpath` is
modelled on a symlink-free filesystem, where it coincides with absolute-path
normalization.
-/

/-- Python exceptions that the embedded code can raise.  The string carried by
each constructor models `str(e)`. -/
inductive PyExn where
  | commandSecurityError (msg : String)
  | valueError (msg : String)
  | reError (msg : String)
  | timeoutExpired (msg : String)
  | osError (msg : String)
deriving DecidableEq, Repr

/-- Models the Python expression `str(e)` on an exception value. -/
def pyStr : PyExn → String
  | .commandSecurityError m => m
  | .valueError m => m
  | .reError m => m
  | .timeoutExpired m => m
  | .osError m => m

/-- Auxiliary for substring search: does `pat` occur inside the character
list? -/
def subOccurs (pat : List Char) : List Char → Bool
  | [] => pat.isEmpty
  | c :: t => pat.isPrefixOf (c :: t) || subOccurs pat t

/-- Models the Python membership test `pat in s` on strings. -/
def strContains (s pat : String) : Bool :=
  subOccurs pat.data s.data

/-- The literal list `shell_operators` from `validate_command`. -/
def shell_operators : List String :=
  ["&&", "||", "|", ">", ">>", "<", "<<", ";"]

/-- Models the scan loop over `shell_operators`: the first operator in list
order that occurs in the raw string, if any. -/
def findOperator (s : String) : Option String :=
  shell_operators.find? (fun op => strContains s op)

/-- Message of the shell-operator rejection raised in `validate_command`. -/
def shellOpMsg (op : String) : String :=
  "Shell operator \x27" ++ op ++ "\x27 is not supported. Only single commands are allowed."

/-- Message raised when the first token is not an allowed command. -/
def cmdNotAllowedMsg (command : String) : String :=
  "Command \x27" ++ command ++ "\x27 is not allowed"

/-- Message raised when a flag-shaped token is not an allowed flag. -/
def flagNotAllowedMsg (arg : String) : String :=
  "Flag \x27" ++ arg ++ "\x27 is not allowed"

/-- Message raised when a path-shaped token fails the containment check. -/
def pathNotAllowedMsg (arg : String) : String :=
  "Path \x27" ++ arg ++ "\x27 is not allowed"

/-- Message raised when a token matches no allowed pattern. -/
def argNotAllowedMsg (arg : String) : String :=
  "Argument \x27" ++ arg ++ "\x27 doesn\x27t match allowed patterns"

/-- Whitespace characters of `shlex` (its `whitespace` attribute). -/
def isWs (c : Char) : Bool :=
  c = ' ' || c = '\t' || c = '\r' || c = '\n'

/-- Lexer modes of the embedded `shlex.split`: outside quotes, inside single
quotes, inside double quotes. -/
inductive SMode where
  | norm | single | double
deriving DecidableEq, Repr

/-- Core loop of `shlex.split` in POSIX mode with whitespace splitting:
`toks` are the emitted tokens, `tok` the token being built, `started` whether
a token is in progress (so that empty quoted strings emit a token).  Unclosed
quotes and a trailing escape raise `ValueError` exactly as the library does. -/
def shlexGo : SMode → List String → String → Bool → List Char → Except PyExn (List String)
  | .norm, toks, tok, started, [] =>
      .ok (if started then toks ++ [tok] else toks)
  | .norm, toks, tok, started, c :: cs =>
      if isWs c then
        if started then shlexGo .norm (toks ++ [tok]) "" false cs
        else shlexGo .norm toks "" false cs
      else if c = '\x27' then shlexGo .single toks tok true cs
      else if c = '"' then shlexGo .double toks tok true cs
      else if c = '\\' then
        match cs with
        | [] => .error (.valueError "No escaped character")
        | d :: cs2 => shlexGo .norm toks (tok.push d) true cs2
      else shlexGo .norm toks (tok.push c) true cs
  | .single, _, _, _, [] => .error (.valueError "No closing quotation")
  | .single, toks, tok, _, c :: cs =>
      if c = '\x27' then shlexGo .norm toks tok true cs
      else shlexGo .single toks (tok.push c) true cs
  | .double, _, _, _, [] => .error (.valueError "No closing quotation")
  | .double, toks, tok, _, c :: cs =>
      if c = '"' then shlexGo .norm toks tok true cs
      else if c = '\\' then
        match cs with
        | [] => .error (.valueError "No escaped character")
        | d :: cs2 =>
            if d = '"' || d = '\\' then shlexGo .double toks (tok.push d) true cs2
            else shlexGo .double toks ((tok.push '\\').push d) true cs2
      else shlexGo .double toks (tok.push c) true cs

/-- Models the library call `shlex.split(command_string)` used by
`validate_command`. -/
def shlexSplit (s : String) : Except PyExn (List String) :=
  shlexGo .norm [] "" false s.data

example : shlexSplit "ls -l notes.txt" = .ok ["ls", "-l", "notes.txt"] := rfl
example : shlexSplit "" = .ok [] := rfl
example : shlexSplit "a\x27b c\x27d e" = .ok ["ab cd", "e"] := rfl
example : shlexSplit "\x27\x27" = .ok [""] := rfl
example : shlexSplit "\x27a" = .error (.valueError "No closing quotation") := rfl
example : shlexSplit "a\\" = .error (.valueError "No escaped character") := rfl

/-- Models `str.startswith` in Python (and `String.startsWith` in Lean), by
comparison of the underlying character lists. -/
def strStartsWith (s pre : String) : Bool :=
  pre.data.isPrefixOf s.data

/-- Models `str.endswith` in Python, by comparison of the underlying
character lists. -/
def strEndsWith (s suf : String) : Bool :=
  suf.data.isSuffixOf s.data

/-- Models `os.path.isabs` on POSIX: the path begins with a slash. -/
def isabs (p : String) : Bool :=
  strStartsWith p "/"

/-- Models the two-argument `os.path.join` on POSIX. -/
def joinPath (a b : String) : String :=
  if isabs b then b
  else if a = "" || strEndsWith a "/" then a ++ b
  else a ++ "/" ++ b

/-- Component loop of `os.path.normpath`: drop empty and dot components and
cancel parent references, keeping leading parent references of relative
paths.  `isAbsolute` records whether the path had initial slashes. -/
def normComps (isAbsolute : Bool) : List String → List String → List String
  | acc, [] => acc.reverse
  | acc, comp :: rest =>
      if comp = "" || comp = "." then normComps isAbsolute acc rest
      else if comp ≠ ".." || (!isAbsolute && acc = []) || acc.head? = some ".." then
        normComps isAbsolute (comp :: acc) rest
      else
        match acc with
        | [] => normComps isAbsolute acc rest
        | _ :: acc2 => normComps isAbsolute acc2 rest

/-- Splitting a character list at every slash, the analogue of the
`path.split(sep)` step in `os.path.normpath`. -/
def splitSlashC : List Char → List (List Char)
  | [] => [[]]
  | c :: cs =>
      match splitSlashC cs with
      | [] => [[]]
      | r :: rs => if c = '/' then [] :: r :: rs else (c :: r) :: rs

/-- Joining components with single slashes, the analogue of the
`sep.join(comps)` step in `os.path.normpath`. -/
def joinSlash : List String → String
  | [] => ""
  | [x] => x
  | x :: xs => x ++ "/" ++ joinSlash xs

/-- Models `os.path.normpath` on POSIX, including the preserved double-slash
prefix. -/
def normpath (p : String) : String :=
  if p = "" then "."
  else
    let slashes : Nat :=
      if strStartsWith p "//" && !strStartsWith p "///" then 2
      else if strStartsWith p "/" then 1 else 0
    let comps := normComps (slashes > 0) [] ((splitSlashC p.data).map String.mk)
    let res := String.mk (List.replicate slashes '/') ++ joinSlash comps
    if res = "" then "." else res

/-- Models `os.path.abspath` on POSIX, with the process working directory as
an explicit parameter. -/
def abspath (cwd p : String) : String :=
  normpath (if isabs p then p else joinPath cwd p)

/-- Models `os.path.realpath` on a symlink-free filesystem, where resolving
symlinks is the identity and only normalization remains. -/
def realpathNoLinks (cwd p : String) : String :=
  abspath cwd p

example : normpath "/a/b/../bc/f.txt" = "/a/bc/f.txt" := rfl
example : normpath "a/./b//c/.." = "a/b" := rfl
example : normpath "../../x" = "../../x" := rfl
example : normpath "/.." = "/" := rfl
example : joinPath "/a/b" "../bc/f.txt" = "/a/b/../bc/f.txt" := rfl
example : joinPath "/a/b" "/etc/passwd" = "/etc/passwd" := rfl

/-- Regular expressions as compiled pattern values.  `badPat` stands for a
pattern string that does not compile (for example the default `*.txt`), on
which `re.match` raises `re.error`. -/
inductive Pat where
  | emp
  | eps
  | chr (c : Char)
  | anyc
  | alt (p q : Pat)
  | cat (p q : Pat)
  | star (p : Pat)
  | badPat (src : String)
deriving DecidableEq, Repr

/-- Nullability: does the pattern accept the empty string? -/
def nullable : Pat → Bool
  | .emp => false
  | .eps => true
  | .chr _ => false
  | .anyc => false
  | .alt p q => nullable p || nullable q
  | .cat p q => nullable p && nullable q
  | .star _ => true
  | .badPat _ => false

/-- Brzozowski derivative of a pattern by one character.  The regex dot does
not match a newline, as in Python without `re.DOTALL`. -/
def derive : Pat → Char → Pat
  | .emp, _ => .emp
  | .eps, _ => .emp
  | .chr c, a => if a = c then .eps else .emp
  | .anyc, a => if a = '\n' then .emp else .eps
  | .alt p q, a => .alt (derive p a) (derive q a)
  | .cat p q, a =>
      if nullable p then .alt (.cat (derive p a) q) (derive q a)
      else .cat (derive p a) q
  | .star p, a => .cat (derive p a) (.star p)
  | .badPat s, _ => .badPat s

/-- Does the pattern match the whole character list?  This is the semantics
of `re.fullmatch`. -/
def matchesFull (p : Pat) : List Char → Bool
  | [] => nullable p
  | c :: cs => matchesFull (derive p c) cs

/-- Does the pattern match some prefix of the character list starting at the
beginning?  This is the semantics of `re.match`. -/
def matchPrefixAux (p : Pat) : List Char → Bool
  | [] => nullable p
  | c :: cs => nullable p || matchPrefixAux (derive p c) cs

/-- Is the pattern an uncompilable source string? -/
def isBad : Pat → Bool
  | .badPat _ => true
  | _ => false

/-- Models `re.match(pattern, arg)` truthiness: raises `re.error` on an
uncompilable pattern, otherwise reports whether a prefix of `arg` matches. -/
def reMatch (p : Pat) (s : String) : Except PyExn Bool :=
  match p with
  | .badPat src => .error (.reError ("bad pattern: " ++ src))
  | q => .ok (matchPrefixAux q s.data)

/-- Modelled from the spec: full-pattern matching of an argument token, the
acceptance notion the specification prescribes for the pattern check. -/
def specFullmatch (p : Pat) (s : String) : Bool :=
  matchesFull p s.data

/-- Models `any(re.match(pattern, arg) for pattern in patterns)`: evaluate
patterns in order, short-circuiting on the first match, raising on the first
uncompilable pattern reached. -/
def anyMatch : List Pat → String → Except PyExn Bool
  | [], _ => .ok false
  | p :: ps, s => do
      let b ← reMatch p s
      if b then pure true else anyMatch ps s

example : matchPrefixAux (.chr 'a') "ab".data = true := rfl
example : matchesFull (.chr 'a') "ab".data = false := rfl
example : matchPrefixAux (.cat (.chr 'a') (.star (.chr 'b'))) "abbb".data = true := rfl
example : matchPrefixAux (.chr 'b') "ab".data = false := rfl

/-- The `SecurityConfig` dataclass.  The Python sets of commands and flags are
lists here; membership is exact, case-sensitive string equality, as for
`in` on a Python `set[str]`.  The numeric fields are Python integers. -/
structure SecurityConfig where
  allowed_commands : List String
  allowed_flags : List String
  allowed_patterns : List Pat
  max_command_length : Int
  command_timeout : Int
deriving DecidableEq, Repr

/-- The constructor generated for the `SecurityConfig` dataclass: it assigns
the five fields and performs no validation, so it never raises. -/
def mkSecurityConfig (allowed_commands allowed_flags : List String)
    (allowed_patterns : List Pat) (max_command_length command_timeout : Int) :
    Except PyExn SecurityConfig :=
  .ok {
    allowed_commands := allowed_commands
    allowed_flags := allowed_flags
    allowed_patterns := allowed_patterns
    max_command_length := max_command_length
    command_timeout := command_timeout
  }

/-- The `CommandExecutor` object state after `__init__`. -/
structure CommandExecutor where
  allowed_dir : String
  security_config : SecurityConfig
deriving DecidableEq, Repr

/-- Models `CommandExecutor.__init__`: raises `ValueError` when the directory
string is empty (falsy) or `os.path.exists` denies it, and otherwise stores
`os.path.abspath(os.path.realpath(allowed_dir))`.  The filesystem existence
test and the working directory are explicit parameters. -/
def CommandExecutor.init (path_exists : String → Bool) (cwd : String)
    (allowed_dir : String) (security_config : SecurityConfig) :
    Except PyExn CommandExecutor :=
  if allowed_dir = "" || !path_exists allowed_dir then
    .error (.valueError "Valid ALLOWED_DIR is required")
  else
    .ok {
      allowed_dir := abspath cwd (realpathNoLinks cwd allowed_dir)
      security_config := security_config
    }

/-- Models `CommandExecutor._is_path_safe`: canonicalize and compare with
`str.startswith` against the allowed directory string. -/
def is_path_safe (cwd root path : String) : Bool :=
  strStartsWith (abspath cwd (realpathNoLinks cwd path)) root

/-- The canonical form the code gives an argument token: the path built in
the loop body of `validate_command` (`abspath(join(allowed_dir, arg))`),
then canonicalized again inside `_is_path_safe`. -/
def canonicalArg (cwd root arg : String) : String :=
  abspath cwd (realpathNoLinks cwd (abspath cwd (joinPath root arg)))

/-- Modelled from the spec: a canonical path lies inside the sandbox root
when it is the root itself or a path below it, componentwise.  This is the
containment notion the specification words describe, to be compared with the
string-prefix test the code performs. -/
def specInsideRoot (root p : String) : Bool :=
  p = root || strStartsWith p (root ++ "/")

/-- The path-containment step of the argument loop in `validate_command`:
applies only to tokens holding a path separator or absolute, and raises the
path rejection when `_is_path_safe` denies the built path. -/
def pathGate (cwd root arg : String) : Except PyExn Unit :=
  if strContains arg "/" || strContains arg "\\" || isabs arg then
    let full_path := abspath cwd (joinPath root arg)
    if is_path_safe cwd root full_path then .ok ()
    else .error (.commandSecurityError (pathNotAllowedMsg arg))
  else .ok ()

/-- The pattern step of the argument loop in `validate_command`: the token
must satisfy `any(re.match(pattern, arg) for pattern in allowed_patterns)`. -/
def patternGate (cfg : SecurityConfig) (arg : String) : Except PyExn Unit := do
  let b ← anyMatch cfg.allowed_patterns arg
  if b then pure () else .error (.commandSecurityError (argNotAllowedMsg arg))

/-- One iteration of the argument loop of `validate_command`: flag-shaped
tokens are checked against `allowed_flags` only (the loop continues), other
tokens pass the path gate and then the pattern gate. -/
def checkArg (cfg : SecurityConfig) (cwd root arg : String) : Except PyExn Unit :=
  if strStartsWith arg "-" then
    if arg ∈ cfg.allowed_flags then .ok ()
    else .error (.commandSecurityError (flagNotAllowedMsg arg))
  else do
    pathGate cwd root arg
    patternGate cfg arg

/-- The argument loop of `validate_command`, stopping at the first raised
rejection. -/
def checkArgs (cfg : SecurityConfig) (cwd root : String) : List String → Except PyExn Unit
  | [] => .ok ()
  | arg :: rest => do
      checkArg cfg cwd root arg
      checkArgs cfg cwd root rest

/-- The flag and pattern checks alone, with the path gate absent: what the
argument loop amounts to for tokens that are not path-shaped. -/
def checkArgNoPath (cfg : SecurityConfig) (arg : String) : Except PyExn Unit :=
  if strStartsWith arg "-" then
    if arg ∈ cfg.allowed_flags then .ok ()
    else .error (.commandSecurityError (flagNotAllowedMsg arg))
  else patternGate cfg arg

/-- The `except ValueError` clause wrapping the try block of
`validate_command`: a `ValueError` is re-raised as a security error with the
invalid-format message, everything else passes through. -/
def wrapValueError {α : Type} : Except PyExn α → Except PyExn α
  | .error (.valueError m) =>
      .error (.commandSecurityError ("Invalid command format: " ++ m))
  | r => r

/-- Models `CommandExecutor.validate_command`: scan the raw string for shell
operators, tokenize with `shlex.split`, reject an empty token list, check the
command name against `allowed_commands`, then run the argument loop.  `cwd`
is the process working directory used by `os.path.abspath`; `root` is the
stored `allowed_dir`. -/
def validate_command (cfg : SecurityConfig) (cwd root : String) (s : String) :
    Except PyExn (String × List String) :=
  match findOperator s with
  | some op => .error (.commandSecurityError (shellOpMsg op))
  | none =>
      wrapValueError (do
        let parts ← shlexSplit s
        match parts with
        | [] => .error (.commandSecurityError "Empty command")
        | command :: args =>
            if command ∈ cfg.allowed_commands then do
              checkArgs cfg cwd root args
              pure (command, args)
            else .error (.commandSecurityError (cmdNotAllowedMsg command)))

/-- The request `CommandExecutor.execute` hands to `subprocess.run`. -/
structure RunCall where
  argv : List String
  shell : Bool
  text : Bool
  capture_output : Bool
  timeout : Int
  cwd : String
deriving DecidableEq, Repr

/-- Models `subprocess.CompletedProcess` with captured text output. -/
structure CompletedProcess where
  returncode : Int
  stdout : String
  stderr : String
deriving DecidableEq, Repr

/-- Outcome of the operating system running one spawn request: the process
completes, exceeds the timeout, or spawning raises an `OSError`-like
exception (missing binary, permission denied). -/
inductive RunOutcome where
  | completed (r : CompletedProcess)
  | timedOut
  | raised (msg : String)
deriving DecidableEq, Repr

/-- Models `str` of the `subprocess.TimeoutExpired` exception raised for a
spawn request. -/
def timeoutExpiredStr (call : RunCall) : String :=
  "Command " ++ toString call.argv ++ " timed out after " ++ toString call.timeout ++ " seconds"

/-- Models the library call `subprocess.run(...)`: returns the completed
process or raises `TimeoutExpired` or the spawn-time exception.  The
operating system behaviour is the `runner` parameter. -/
def subprocessRun (runner : RunCall → RunOutcome) (call : RunCall) :
    Except PyExn CompletedProcess :=
  match runner call with
  | .completed r => .ok r
  | .timedOut => .error (.timeoutExpired (timeoutExpiredStr call))
  | .raised m => .error (.osError m)

/-- The spawn request `execute` builds for a validated command. -/
def mkRunCall (cfg : SecurityConfig) (root command : String) (args : List String) : RunCall :=
  {
    argv := command :: args
    shell := false
    text := true
    capture_output := true
    timeout := cfg.command_timeout
    cwd := root
  }

/-- The `except Exception` clause of `execute`: a `CommandSecurityError` is
re-raised unchanged, every other exception is wrapped into a
`CommandSecurityError` with the execution-failed message. -/
def wrapNonCSE {α : Type} : Except PyExn α → Except PyExn α
  | .ok a => .ok a
  | .error (.commandSecurityError m) => .error (.commandSecurityError m)
  | .error e => .error (.commandSecurityError ("Command execution failed: " ++ pyStr e))

/-- Models `CommandExecutor.execute`: the length bound is checked first, then
the try block validates and spawns, and the blanket handler folds every
non-security exception into `CommandSecurityError`. -/
def execute (cfg : SecurityConfig) (cwd root : String)
    (runner : RunCall → RunOutcome) (s : String) : Except PyExn CompletedProcess :=
  if (s.length : Int) > cfg.max_command_length then
    .error (.commandSecurityError "Command string too long")
  else
    wrapNonCSE (do
      let (command, args) ← validate_command cfg cwd root s
      subprocessRun runner (mkRunCall cfg root command args))

/-- The responses the `run_command` branch of `handle_call_tool` can build
from the outcome of `executor.execute`, one per `except` clause. -/
inductive ToolResponse where
  | completed (stdout stderr : String) (returncode : Int)
  | securityViolation (msg : String)
  | timedOutResp (timeout : Int)
  | otherError (msg : String)
deriving DecidableEq, Repr

/-- Models the result dispatch of the `run_command` branch of
`handle_call_tool`: the `except` ladder tries `CommandSecurityError` first,
then `subprocess.TimeoutExpired`, then any exception. -/
def handle_run_command (cfg : SecurityConfig) (cwd root : String)
    (runner : RunCall → RunOutcome) (s : String) : ToolResponse :=
  match execute cfg cwd root runner s with
  | .ok r => .completed r.stdout r.stderr r.returncode
  | .error (.commandSecurityError m) => .securityViolation m
  | .error (.timeoutExpired _) => .timedOutResp cfg.command_timeout
  | .error e => .otherError (pyStr e)

/-- Is the outcome of `execute` a completed process or a
`CommandSecurityError`? -/
def isOkOrCse : Except PyExn CompletedProcess → Bool
  | .ok _ => true
  | .error (.commandSecurityError _) => true
  | .error _ => false

/-- Is the response the one built by the `except subprocess.TimeoutExpired`
clause? -/
def isTimeoutBranch : ToolResponse → Bool
  | .timedOutResp _ => true
  | _ => false

example :
    validate_command
      { allowed_commands := ["ls"], allowed_flags := ["-l"],
        allowed_patterns := [.star .anyc], max_command_length := 1024,
        command_timeout := 30 }
      "/" "/sandbox" "ls -l notes.txt" = .ok ("ls", ["-l", "notes.txt"]) := rfl

example :
    validate_command
      { allowed_commands := ["ls"], allowed_flags := ["-l"],
        allowed_patterns := [.star .anyc], max_command_length := 1024,
        command_timeout := 30 }
      "/" "/sandbox" "ls /etc/passwd" =
      .error (.commandSecurityError (pathNotAllowedMsg "/etc/passwd")) := rfl

example :
    validate_command
      { allowed_commands := ["ls"], allowed_flags := ["-l"],
        allowed_patterns := [.star .anyc], max_command_length := 1024,
        command_timeout := 30 }
      "/" "/sandbox" "rm -rf /" =
      .error (.commandSecurityError (cmdNotAllowedMsg "rm")) := rfl

example :
    validate_command
      { allowed_commands := ["ls"], allowed_flags := ["-l"],
        allowed_patterns := [.star .anyc], max_command_length := 1024,
        command_timeout := 30 }
      "/" "/a/b" "ls ../bc/f.txt" = .ok ("ls", ["../bc/f.txt"]) := rfl

example : canonicalArg "/" "/a/b" "../bc/f.txt" = "/a/bc/f.txt" := rfl
example : specInsideRoot "/a/b" "/a/bc/f.txt" = false := rfl
example :
    checkArg
      { allowed_commands := ["ls"], allowed_flags := [],
        allowed_patterns := [.star .anyc], max_command_length := 1024,
        command_timeout := 30 }
      "/" "/a/b" ".." = .ok () := rfl
example : canonicalArg "/" "/a/b" ".." = "/a" := rfl

theorem wrapNonCSE_isOkOrCse (x : Except PyExn CompletedProcess) :
    isOkOrCse (wrapNonCSE x) = true := by
  cases x with
  | ok a => rfl
  | error e => cases e <;> rfl

theorem execute_isOkOrCse (cfg : SecurityConfig) (cwd root : String)
    (runner : RunCall → RunOutcome) (s : String) :
    isOkOrCse (execute cfg cwd root runner s) = true := by
  unfold execute
  split
  · rfl
  · exact wrapNonCSE_isOkOrCse _

/-- Claim C10: for every input string, working directory, sandbox root and
operating-system behaviour, `execute` either returns a completed process or
raises `CommandSecurityError`; the blanket handler wraps every other
exception (the subprocess timeout, shlex ValueError, re errors from
uncompilable patterns, spawn failures), so a caller can never observe any
other exception type. -/
theorem c10_all_errors_are_security_errors (cfg : SecurityConfig) (cwd root : String)
    (runner : RunCall → RunOutcome) (s : String) :
    isOkOrCse (execute cfg cwd root runner s) = true := by
  exact execute_isOkOrCse cfg cwd root runner s

/-- Claim C7: every raw string strictly longer than `max_command_length`
makes `execute` fail with the too-long rejection, whatever the string holds
and whatever the rest of the configuration or the operating system does: the
length check precedes the operator scan and tokenization. -/
theorem c7_length_check_first (cfg : SecurityConfig) (cwd root : String)
    (runner : RunCall → RunOutcome) (s : String)
    (h : cfg.max_command_length < (s.length : Int)) :
    execute cfg cwd root runner s = .error (.commandSecurityError "Command string too long") := by
  unfold execute
  rw [if_pos h]

/-- Witness for C7: a string holding a shell operator and an unclosed quote
still fails with the length rejection when it exceeds the bound. -/
theorem c7_length_check_first_witness :
    execute
      { allowed_commands := ["ls"], allowed_flags := [],
        allowed_patterns := [.star .anyc], max_command_length := 3,
        command_timeout := 30 }
      "/" "/sandbox" (fun _ => .completed ⟨0, "", ""⟩) "ls -l; cat \x27x" =
      .error (.commandSecurityError "Command string too long") := by
  exact c7_length_check_first _ "/" "/sandbox" _ _ (by decide)

/-- Claim C2: a raw command string holding any of the shell-operator
substrings is rejected by `validate_command` with the unsupported-operator
message naming an operator that does occur in the string, whatever the
allowlists hold; the scan runs on the raw string before tokenization, so
quoting cannot hide an operator. -/
theorem c2_shell_operator_rejection (cfg : SecurityConfig) (cwd root : String)
    (s op : String) (hmem : op ∈ shell_operators) (hsub : strContains s op = true) :
    ∃ op2, op2 ∈ shell_operators ∧ strContains s op2 = true ∧
      validate_command cfg cwd root s = .error (.commandSecurityError (shellOpMsg op2)) := by
  cases hfind : findOperator s with
  | none =>
      exfalso
      have hall := List.find?_eq_none.mp hfind op hmem
      simp [hsub] at hall
  | some op2 =>
      refine ⟨op2, List.mem_of_find?_eq_some hfind, List.find?_some hfind, ?_⟩
      unfold validate_command
      rw [hfind]

/-- Witness for C2: a pipe operator hidden inside single quotes is still
rejected, and the rejection names an operator present in the raw string. -/
theorem c2_shell_operator_rejection_witness :
    ∃ op2, op2 ∈ shell_operators ∧ strContains "echo \x27a|b\x27" op2 = true ∧
      validate_command
        { allowed_commands := ["echo"], allowed_flags := [],
          allowed_patterns := [.star .anyc], max_command_length := 1024,
          command_timeout := 30 }
        "/" "/sandbox" "echo \x27a|b\x27" =
        .error (.commandSecurityError (shellOpMsg op2)) := by
  exact c2_shell_operator_rejection _ "/" "/sandbox" "echo \x27a|b\x27" "|"
    (by decide) (by decide)

/-- Claim C3: when the raw string is within the length bound and validation
succeeds with `(cmd, args)`, `execute` issues exactly one spawn request,
whose argument vector is `cmd :: args`, with `shell := false` (no command
interpreter), text-mode capture of both output streams, the configured
timeout, and the sandbox root as working directory; when the process
completes, its captured outputs and exit code are returned unchanged. -/
theorem c3_direct_spawn (cfg : SecurityConfig) (cwd root : String)
    (runner : RunCall → RunOutcome) (s cmd : String) (args : List String)
    (hlen : (s.length : Int) ≤ cfg.max_command_length)
    (hval : validate_command cfg cwd root s = .ok (cmd, args)) :
    execute cfg cwd root runner s =
      wrapNonCSE (subprocessRun runner (mkRunCall cfg root cmd args))
    ∧ ∀ r : CompletedProcess,
        runner (mkRunCall cfg root cmd args) = .completed r →
        execute cfg cwd root runner s = .ok r := by
  have hnot : ¬ ((s.length : Int) > cfg.max_command_length) := not_lt.mpr hlen
  constructor
  · unfold execute
    rw [if_neg hnot]
    simp [hval, Bind.bind, Except.bind]
  · intro r hr
    unfold execute
    rw [if_neg hnot]
    simp [hval, Bind.bind, Except.bind, subprocessRun, hr, wrapNonCSE]

/-- Witness for C3: a valid listing command completes and its exit code and
captured streams are returned unchanged. -/
theorem c3_direct_spawn_witness :
    execute
      { allowed_commands := ["ls"], allowed_flags := ["-l"],
        allowed_patterns := [.star .anyc], max_command_length := 1024,
        command_timeout := 30 }
      "/" "/sandbox" (fun _ => .completed ⟨0, "notes.txt\n", ""⟩) "ls -l notes.txt" =
      .ok ⟨0, "notes.txt\n", ""⟩ := by
  exact (c3_direct_spawn _ "/" "/sandbox" _ "ls -l notes.txt" "ls" ["-l", "notes.txt"]
    (by decide) (by rfl)).2 _ rfl

/-- Claim C8: with no shell operator in the raw string and a successful
tokenization, a first token outside `allowed_commands` is rejected with the
command rejection, and a flag-shaped token outside `allowed_flags` is
rejected with the flag rejection; both memberships are exact string
comparisons, and the outcome for a flag-shaped token depends only on
`allowed_flags` — no pattern or path check applies to it. -/
theorem c8_exact_membership_checks (cfg : SecurityConfig) (cwd root : String)
    (s cmd arg : String) (args : List String)
    (hop : findOperator s = none)
    (htok : shlexSplit s = .ok (cmd :: args)) :
    (cmd ∉ cfg.allowed_commands →
       validate_command cfg cwd root s = .error (.commandSecurityError (cmdNotAllowedMsg cmd)))
    ∧ (strStartsWith arg "-" = true →
        (arg ∉ cfg.allowed_flags →
           checkArg cfg cwd root arg = .error (.commandSecurityError (flagNotAllowedMsg arg)))
        ∧ (arg ∈ cfg.allowed_flags → checkArg cfg cwd root arg = .ok ())
        ∧ (∀ (cfg2 : SecurityConfig) (cwd2 root2 : String),
             cfg2.allowed_flags = cfg.allowed_flags →
             checkArg cfg2 cwd2 root2 arg = checkArg cfg cwd root arg)) := by
  constructor
  · intro hcmd
    unfold validate_command
    rw [hop]
    simp [htok, Bind.bind, Except.bind, hcmd, wrapValueError]
  · intro hflag
    refine ⟨?_, ?_, ?_⟩
    · intro hmem
      simp [checkArg, hflag, hmem]
    · intro hmem
      simp [checkArg, hflag, hmem]
    · intro cfg2 cwd2 root2 heq
      simp [checkArg, hflag, heq]

/-- Witness for C8: a command outside the allowlist is rejected by name; a
flag that extends an allowed flag is still rejected because membership is
exact; the allowed flag itself passes, and its outcome does not change under
a different pattern list and root. -/
theorem c8_exact_membership_checks_witness :
    (validate_command
       { allowed_commands := ["ls"], allowed_flags := ["-l"],
         allowed_patterns := [.star .anyc], max_command_length := 1024,
         command_timeout := 30 }
       "/" "/sandbox" "rm -rf" =
       .error (.commandSecurityError (cmdNotAllowedMsg "rm")))
    ∧ (checkArg
         { allowed_commands := ["ls"], allowed_flags := ["-l"],
           allowed_patterns := [.star .anyc], max_command_length := 1024,
           command_timeout := 30 }
         "/" "/sandbox" "-la" =
         .error (.commandSecurityError (flagNotAllowedMsg "-la")))
    ∧ (checkArg
         { allowed_commands := ["ls"], allowed_flags := ["-l"],
           allowed_patterns := [.star .anyc], max_command_length := 1024,
           command_timeout := 30 }
         "/" "/sandbox" "-l" = .ok ())
    ∧ (checkArg
         { allowed_commands := [], allowed_flags := ["-l"],
           allowed_patterns := [], max_command_length := 7,
           command_timeout := 1 }
         "/x" "/y" "-l" =
       checkArg
         { allowed_commands := ["ls"], allowed_flags := ["-l"],
           allowed_patterns := [.star .anyc], max_command_length := 1024,
           command_timeout := 30 }
         "/" "/sandbox" "-l") := by
  refine ⟨?_, ?_, ?_, ?_⟩
  · exact (c8_exact_membership_checks _ "/" "/sandbox" "rm -rf" "rm" "-rf" ["-rf"]
      (by decide) (by rfl)).1 (by decide)
  · exact ((c8_exact_membership_checks _ "/" "/sandbox" "rm -rf" "rm" "-la" ["-rf"]
      (by decide) (by rfl)).2 (by decide)).1 (by decide)
  · exact ((c8_exact_membership_checks _ "/" "/sandbox" "rm -rf" "rm" "-l" ["-rf"]
      (by decide) (by rfl)).2 (by decide)).2.1 (by decide)
  · exact ((c8_exact_membership_checks _ "/" "/sandbox" "rm -rf" "rm" "-l" ["-rf"]
      (by decide) (by rfl)).2 (by decide)).2.2 _ "/x" "/y" (by decide)

/-- Claim C9: an argument token holding no slash and no backslash and not
absolute — the bare parent reference included — never reaches the path gate:
its outcome in the argument loop is exactly the flag-and-pattern check, with
the working directory and sandbox root playing no part. -/
theorem c9_no_path_check_without_separator (cfg : SecurityConfig) (cwd root arg : String)
    (h1 : strContains arg "/" = false) (h2 : strContains arg "\\" = false)
    (h3 : isabs arg = false) :
    checkArg cfg cwd root arg = checkArgNoPath cfg arg := by
  unfold checkArg checkArgNoPath
  by_cases hflag : strStartsWith arg "-" = true
  · simp [hflag]
  · simp [hflag, pathGate, h1, h2, h3, Bind.bind, Except.bind]

/-- Witness for C9: the bare parent reference resolves to a directory outside
the sandbox root, yet is checked by flags and patterns only and accepted. -/
theorem c9_no_path_check_without_separator_witness :
    (checkArg
       { allowed_commands := ["ls"], allowed_flags := [],
         allowed_patterns := [.star .anyc], max_command_length := 1024,
         command_timeout := 30 }
       "/" "/a/b" ".." =
     checkArgNoPath
       { allowed_commands := ["ls"], allowed_flags := [],
         allowed_patterns := [.star .anyc], max_command_length := 1024,
         command_timeout := 30 }
       "..")
    ∧ (checkArg
         { allowed_commands := ["ls"], allowed_flags := [],
           allowed_patterns := [.star .anyc], max_command_length := 1024,
           command_timeout := 30 }
         "/" "/a/b" ".." = .ok ())
    ∧ specInsideRoot "/a/b" (canonicalArg "/" "/a/b" "..") = false := by
  exact ⟨c9_no_path_check_without_separator _ "/" "/a/b" ".."
    (by decide) (by decide) (by decide), rfl, rfl⟩

/-- Claim C1 counterexample: with sandbox root `/a/b`, the token
`../bc/f.txt` canonicalizes to `/a/bc/f.txt`, which lies outside the root,
yet validation accepts the command: `_is_path_safe` compares with a plain
string-prefix test and the sibling directory `/a/bc` extends the root string
`/a/b`. -/
theorem c1_path_containment_counterexample :
    validate_command
      { allowed_commands := ["ls"], allowed_flags := [],
        allowed_patterns := [.star .anyc], max_command_length := 1024,
        command_timeout := 30 }
      "/" "/a/b" "ls ../bc/f.txt" = .ok ("ls", ["../bc/f.txt"])
    ∧ canonicalArg "/" "/a/b" "../bc/f.txt" = "/a/bc/f.txt"
    ∧ specInsideRoot "/a/b" (canonicalArg "/" "/a/b" "../bc/f.txt") = false := by
  exact ⟨rfl, rfl, rfl⟩

/-- Claim C1 as amended: for a non-flag token that holds a path separator or
is absolute, the argument loop rejects with the path rejection exactly when
the canonicalized path does not begin, as a string, with the canonical root;
when the string-prefix test passes — which sibling paths extending the root
string also do — the loop proceeds to the pattern gate. -/
theorem c1_path_containment_amended (cfg : SecurityConfig) (cwd root arg : String)
    (hflag : strStartsWith arg "-" = false)
    (hsep : (strContains arg "/" || strContains arg "\\" || isabs arg) = true) :
    (strStartsWith (canonicalArg cwd root arg) root = false →
       checkArg cfg cwd root arg = .error (.commandSecurityError (pathNotAllowedMsg arg)))
    ∧ (strStartsWith (canonicalArg cwd root arg) root = true →
       checkArg cfg cwd root arg = patternGate cfg arg) := by
  constructor
  · intro hdeny
    simp [checkArg, hflag, pathGate, hsep, is_path_safe, canonicalArg,
      realpathNoLinks] at *
    simp [hdeny, Bind.bind, Except.bind]
  · intro hsafe
    simp [checkArg, hflag, pathGate, hsep, is_path_safe, canonicalArg,
      realpathNoLinks] at *
    simp [hsafe, Bind.bind, Except.bind]

/-- Witness for C1 as amended: `/etc/passwd` does not begin with the root
string and is rejected; the sibling path from the counterexample begins with
the root string and reaches the pattern gate. -/
theorem c1_path_containment_amended_witness :
    (checkArg
       { allowed_commands := ["ls"], allowed_flags := [],
         allowed_patterns := [.star .anyc], max_command_length := 1024,
         command_timeout := 30 }
       "/" "/a/b" "/etc/passwd" =
       .error (.commandSecurityError (pathNotAllowedMsg "/etc/passwd")))
    ∧ (checkArg
         { allowed_commands := ["ls"], allowed_flags := [],
           allowed_patterns := [.star .anyc], max_command_length := 1024,
           command_timeout := 30 }
         "/" "/a/b" "../bc/f.txt" =
       patternGate
         { allowed_commands := ["ls"], allowed_flags := [],
           allowed_patterns := [.star .anyc], max_command_length := 1024,
           command_timeout := 30 }
         "../bc/f.txt") := by
  exact ⟨(c1_path_containment_amended _ "/" "/a/b" "/etc/passwd"
      (by decide) (by decide)).1 (by decide),
    (c1_path_containment_amended _ "/" "/a/b" "../bc/f.txt"
      (by decide) (by decide)).2 (by decide)⟩

/-- Claim C5 counterexample: the `SecurityConfig` dataclass constructor
performs no validation, so construction succeeds with an empty command
allowlist, a zero length bound and a negative timeout; `CommandExecutor`
construction with such a configuration also succeeds when the directory
exists. -/
theorem c5_config_validation_counterexample :
    mkSecurityConfig [] [] [] 0 (-1) =
      .ok { allowed_commands := [], allowed_flags := [], allowed_patterns := [],
            max_command_length := 0, command_timeout := -1 }
    ∧ CommandExecutor.init (fun _ => true) "/" "/a"
        { allowed_commands := [], allowed_flags := [], allowed_patterns := [],
          max_command_length := 0, command_timeout := -1 } =
      .ok { allowed_dir := "/a",
            security_config :=
              { allowed_commands := [], allowed_flags := [], allowed_patterns := [],
                max_command_length := 0, command_timeout := -1 } } := by
  exact ⟨rfl, rfl⟩

/-- Claim C5 as amended: configuration construction always succeeds whatever
the field values — non-positive limits and an empty allowlist included — and
the only construction-time failure in the program is the `ValueError` that
`CommandExecutor.__init__` raises when the allowed directory is empty or
does not exist; otherwise the executor is built with the canonicalized
directory. -/
theorem c5_config_no_validation (allowed_commands allowed_flags : List String)
    (allowed_patterns : List Pat) (max_command_length command_timeout : Int) :
    mkSecurityConfig allowed_commands allowed_flags allowed_patterns
        max_command_length command_timeout =
      .ok { allowed_commands := allowed_commands, allowed_flags := allowed_flags,
            allowed_patterns := allowed_patterns,
            max_command_length := max_command_length,
            command_timeout := command_timeout }
    ∧ (∀ (path_exists : String → Bool) (cwd adir : String) (cfg : SecurityConfig),
        (adir = "" ∨ path_exists adir = false →
           CommandExecutor.init path_exists cwd adir cfg =
             .error (.valueError "Valid ALLOWED_DIR is required"))
        ∧ (adir ≠ "" → path_exists adir = true →
           CommandExecutor.init path_exists cwd adir cfg =
             .ok { allowed_dir := abspath cwd (realpathNoLinks cwd adir),
                   security_config := cfg })) := by
  refine ⟨rfl, ?_⟩
  intro path_exists cwd adir cfg
  constructor
  · intro h
    unfold CommandExecutor.init
    rcases h with h | h
    · simp [h]
    · simp [h]
  · intro h1 h2
    unfold CommandExecutor.init
    simp [h1, h2]

/-- Witness for C5 as amended: a config with a negative timeout is built
without error, a missing directory fails executor construction, an existing
one succeeds. -/
theorem c5_config_no_validation_witness :
    mkSecurityConfig [] [] [] (-5) (-5) =
      .ok { allowed_commands := [], allowed_flags := [], allowed_patterns := [],
            max_command_length := -5, command_timeout := -5 }
    ∧ CommandExecutor.init (fun _ => false) "/" "/missing"
        { allowed_commands := [], allowed_flags := [], allowed_patterns := [],
          max_command_length := -5, command_timeout := -5 } =
      .error (.valueError "Valid ALLOWED_DIR is required")
    ∧ CommandExecutor.init (fun _ => true) "/" "/a//b/."
        { allowed_commands := [], allowed_flags := [], allowed_patterns := [],
          max_command_length := -5, command_timeout := -5 } =
      .ok { allowed_dir := abspath "/" (realpathNoLinks "/" "/a//b/."),
            security_config :=
              { allowed_commands := [], allowed_flags := [], allowed_patterns := [],
                max_command_length := -5, command_timeout := -5 } } := by
  refine ⟨(c5_config_no_validation [] [] [] (-5) (-5)).1, ?_, ?_⟩
  · exact ((c5_config_no_validation [] [] [] (-5) (-5)).2 (fun _ => false) "/" "/missing" _).1
      (Or.inr rfl)
  · exact ((c5_config_no_validation [] [] [] (-5) (-5)).2 (fun _ => true) "/" "/a//b/." _).2
      (by decide) rfl

theorem reMatch_of_not_bad (p : Pat) (s : String) (h : isBad p = false) :
    reMatch p s = .ok (matchPrefixAux p s.data) := by
  cases p <;> first | rfl | simp [isBad] at h

theorem anyMatch_eq_any (ps : List Pat) (s : String)
    (h : ∀ p ∈ ps, isBad p = false) :
    anyMatch ps s = .ok (ps.any (fun p => matchPrefixAux p s.data)) := by
  induction ps with
  | nil => rfl
  | cons p rest ih =>
      have hp := reMatch_of_not_bad p s (h p (List.mem_cons_self p rest))
      have hrest := ih (fun q hq => h q (List.mem_cons_of_mem p hq))
      by_cases hm : matchPrefixAux p s.data = true
      · simp [anyMatch, hp, Bind.bind, Except.bind, hm, List.any_cons, pure, Except.pure]
      · simp only [Bool.not_eq_true] at hm
        simp [anyMatch, hp, Bind.bind, Except.bind, hm, List.any_cons, hrest]

/-- Claim C6 counterexample: with the single compilable pattern `a`, the
token `ab` does not match any pattern in full, yet validation accepts the
command, because the code uses `re.match`, which only anchors at the start
and accepts a proper prefix match. -/
theorem c6_fullmatch_counterexample :
    validate_command
      { allowed_commands := ["ls"], allowed_flags := [],
        allowed_patterns := [.chr 'a'], max_command_length := 1024,
        command_timeout := 30 }
      "/" "/sandbox" "ls ab" = .ok ("ls", ["ab"])
    ∧ (({ allowed_commands := ["ls"], allowed_flags := [],
           allowed_patterns := [.chr 'a'], max_command_length := 1024,
           command_timeout := 30 } : SecurityConfig).allowed_patterns.all
         (fun p => !specFullmatch p "ab")) = true := by
  exact ⟨rfl, rfl⟩

/-- Claim C6 as amended: for a non-flag token that passes (or is exempt
from) the path gate, and compilable patterns, the argument loop accepts the
token exactly when some pattern matches a prefix of it starting at the
beginning — the semantics of `re.match` — and rejects with the
argument rejection when no pattern matches any such prefix. -/
theorem c6_prefix_match_semantics (cfg : SecurityConfig) (cwd root arg : String)
    (hflag : strStartsWith arg "-" = false)
    (hpath : (strContains arg "/" || strContains arg "\\" || isabs arg) = true →
       strStartsWith (canonicalArg cwd root arg) root = true)
    (hgood : ∀ p ∈ cfg.allowed_patterns, isBad p = false) :
    (checkArg cfg cwd root arg = .ok () ↔
       cfg.allowed_patterns.any (fun p => matchPrefixAux p arg.data) = true)
    ∧ (cfg.allowed_patterns.any (fun p => matchPrefixAux p arg.data) = false →
       checkArg cfg cwd root arg = .error (.commandSecurityError (argNotAllowedMsg arg))) := by
  have hgate : pathGate cwd root arg = .ok () := by
    unfold pathGate
    by_cases hc : (strContains arg "/" || strContains arg "\\" || isabs arg) = true
    · have hs : is_path_safe cwd root (abspath cwd (joinPath root arg)) = true := hpath hc
      simp [hc, hs]
    · simp only [Bool.not_eq_true] at hc
      simp [hc]
  have hany := anyMatch_eq_any cfg.allowed_patterns arg hgood
  constructor
  · constructor
    · intro hok
      by_contra hnot
      simp only [Bool.not_eq_true] at hnot
      simp [checkArg, hflag, hgate, Bind.bind, Except.bind, patternGate, hany, hnot] at hok
    · intro hm
      simp [checkArg, hflag, hgate, Bind.bind, Except.bind, patternGate, hany, hm, pure, Except.pure]
  · intro hm
    simp [checkArg, hflag, hgate, Bind.bind, Except.bind, patternGate, hany, hm]

/-- Witness for C6 as amended: with the single pattern `a` the token `ab` is
accepted through its prefix match, while the token `zb` matches no prefix
and is rejected. -/
theorem c6_prefix_match_semantics_witness :
    (checkArg
       { allowed_commands := ["ls"], allowed_flags := [],
         allowed_patterns := [.chr 'a'], max_command_length := 1024,
         command_timeout := 30 }
       "/" "/sandbox" "ab" = .ok ())
    ∧ (checkArg
         { allowed_commands := ["ls"], allowed_flags := [],
           allowed_patterns := [.chr 'a'], max_command_length := 1024,
           command_timeout := 30 }
         "/" "/sandbox" "zb" =
         .error (.commandSecurityError (argNotAllowedMsg "zb"))) := by
  constructor
  · exact (c6_prefix_match_semantics _ "/" "/sandbox" "ab" (by decide)
      (fun h => absurd h (by decide)) (by decide)).1.mpr (by decide)
  · exact (c6_prefix_match_semantics _ "/" "/sandbox" "zb" (by decide)
      (fun h => absurd h (by decide)) (by decide)).2 (by decide)

/-- Claim C4, the code as it stands: when the child process exceeds the
timeout, the `subprocess.TimeoutExpired` exception is swallowed by the
blanket handler in `execute` and re-raised as a `CommandSecurityError` with
the generic execution-failed message — the same kind as every other
invocation failure — so the dedicated timeout clause of `handle_call_tool`
can never fire, for any configuration, input or operating-system
behaviour. -/
theorem c4_timeout_wrapped_as_security_violation :
    execute
      { allowed_commands := ["sleep"], allowed_flags := [],
        allowed_patterns := [.star .anyc], max_command_length := 1024,
        command_timeout := 1 }
      "/" "/sandbox" (fun _ => .timedOut) "sleep 5" =
      .error (.commandSecurityError ("Command execution failed: " ++
        timeoutExpiredStr (mkRunCall
          { allowed_commands := ["sleep"], allowed_flags := [],
            allowed_patterns := [.star .anyc], max_command_length := 1024,
            command_timeout := 1 }
          "/sandbox" "sleep" ["5"])))
    ∧ handle_run_command
        { allowed_commands := ["sleep"], allowed_flags := [],
          allowed_patterns := [.star .anyc], max_command_length := 1024,
          command_timeout := 1 }
        "/" "/sandbox" (fun _ => .timedOut) "sleep 5" =
      .securityViolation ("Command execution failed: " ++
        timeoutExpiredStr (mkRunCall
          { allowed_commands := ["sleep"], allowed_flags := [],
            allowed_patterns := [.star .anyc], max_command_length := 1024,
            command_timeout := 1 }
          "/sandbox" "sleep" ["5"]))
    ∧ ∀ (cfg : SecurityConfig) (cwd root : String)
        (runner : RunCall → RunOutcome) (s : String),
        isTimeoutBranch (handle_run_command cfg cwd root runner s) = false := by
  refine ⟨rfl, rfl, ?_⟩
  intro cfg cwd root runner s
  have h := execute_isOkOrCse cfg cwd root runner s
  unfold handle_run_command
  cases hE : execute cfg cwd root runner s with
  | ok r => rfl
  | error e =>
      rw [hE] at h
      cases e <;> simp_all [isOkOrCse, isTimeoutBranch]
